import Mathlib

/-!
Verification of the natural-language interface of a Prolog-backed data
catalog (`nl_interface.py`, `excel_to_prolog.py`, plus `full_lineage`
from the Prolog knowledge base).

Python strings are embedded as `String`, but every operation that the
source performs on them (lower-casing, stripping, regular-expression
search, replacement, splitting) is re-implemented here over `List Char`
by structural recursion, so that all definitions evaluate inside the
kernel.  The interpreter for the regular-expression fragment used by
`pattern_match` is fuel-indexed; the fuel argument strictly decreases
along a measure `2 * |input| + toksSize pattern`, and the exported entry
point supplies fuel strictly above that bound, so the `none`-on-zero-fuel
branch is unreachable (see `runToksF_fuel_irrelevant`).
-/

/-! ## Python string primitives over `List Char` -/

/-- ASCII lower-casing of one character, the effect of Python's
`str.lower` on the inputs handled by the interface. -/
def asciiLower (c : Char) : Char :=
  if 'A' ≤ c ∧ c ≤ 'Z' then Char.ofNat (c.toNat + 32) else c

/-- Python `str.lower`. -/
def pyLower (s : String) : String :=
  String.mk (s.data.map asciiLower)

/-- Python `str.strip()`: drop leading and trailing whitespace. -/
def pyStrip (s : String) : String :=
  String.mk (((s.data.dropWhile Char.isWhitespace).reverse.dropWhile Char.isWhitespace).reverse)

/-- One left-to-right pass of Python `str.replace` over the character
list.  The fuel `k` stays an upper bound on the list length at every
call (replacing a non-empty pattern shortens the list by at least as
much as the single unit of fuel spent), so the zero-fuel fallback is
never reached from `pyReplace`. -/
def pyReplaceAux (pat rep : List Char) : Nat → List Char → List Char
  | _, [] => []
  | 0, s => s
  | k + 1, c :: s =>
    if pat ≠ [] ∧ pat.isPrefixOf (c :: s) then
      rep ++ pyReplaceAux pat rep k ((c :: s).drop pat.length)
    else
      c :: pyReplaceAux pat rep k s

/-- Python `str.replace(old, new)` for a non-empty `old`. -/
def pyReplace (s pat rep : String) : String :=
  String.mk (pyReplaceAux pat.data rep.data s.data.length s.data)

/-- Python `sub in s` for a one-character `sub`. -/
def pyContainsChar (s : String) (c : Char) : Bool :=
  s.data.any (fun d => d == c)

/-- Python `s.split(sep)[0]` for a one-character separator. -/
def pyFirstLine (s : String) (sep : Char) : String :=
  String.mk (s.data.takeWhile (fun d => !(d == sep)))

/-- Python `s.endswith(c)` for a one-character suffix. -/
def pyEndsWithChar (s : String) (c : Char) : Bool :=
  match s.data.getLast? with
  | some d => d == c
  | none => false

/-- Python `s[:-1]`. -/
def pyDropLast (s : String) : String :=
  String.mk s.data.dropLast

/-- Python `'\n'.join(parts)` (general separator). -/
def pyJoin (sep : String) (parts : List String) : String :=
  match parts with
  | [] => ""
  | p :: ps => ps.foldl (fun acc q => acc ++ sep ++ q) p

/-! ## The regular-expression fragment used by `pattern_match`

The sixteen patterns in `NaturalLanguageInterface.pattern_match`
(src/nl_interface.py:261-292) use only: literal text, `.*`, alternation
of literal words `(a|b|c)`, an optional final character `s?`, the
escaped dot `\.`, and the captured character class `([a-z_]+)`.  `Tok`
reproduces exactly these constructs; a pattern is a token list. -/

inductive Tok where
  /-- A literal string, e.g. `gold` or `lineage for `. -/
  | lit (w : String)
  /-- An alternation of literal words, e.g. `(without|missing|no)`. -/
  | alt (ws : List String)
  /-- `.*` — any characters except newline, greedy. -/
  | anyStar
  /-- An optional single character, e.g. `s?`. -/
  | optChar (c : Char)
  /-- `([a-z_]+)` and the like: a captured, maximal non-empty run of
  characters satisfying the class predicate.  The classes used by the
  source exclude every character that can legally follow the run, so
  maximal munch coincides with Python's greedy backtracking here. -/
  | classPlus (p : Char → Bool)

/-- Size of one token for the fuel measure: an alternation counts one
per remaining word, every other token counts one. -/
def tokSize : Tok → Nat
  | .alt ws => 1 + ws.length
  | _ => 1

/-- Size of a token list for the fuel measure. -/
def toksSize (ts : List Tok) : Nat :=
  (ts.map tokSize).sum

/-- Backtracking matcher for a token list against a suffix of the input,
anchored at its start, accumulating capture groups in reverse.  Greedy
like Python: `anyStar` prefers consuming more characters, `optChar`
prefers the character present, alternatives are tried left to right with
backtracking into the rest of the pattern.  Each recursive call strictly
decreases `2 * s.length + toksSize ts`, so the fuel never reaches zero
when the entry point `runToks` is used (`runToksF_fuel_irrelevant`). -/
def runToksF : Nat → List Tok → List Char → List String → Option (List String)
  | 0, _, _, _ => none
  | _ + 1, [], _, caps => some caps.reverse
  | f + 1, .lit w :: ts, s, caps =>
    if w.data.isPrefixOf s then runToksF f ts (s.drop w.length) caps else none
  | _ + 1, .alt [] :: _, _, _ => none
  | f + 1, .alt (w :: ws) :: ts, s, caps =>
    (if w.data.isPrefixOf s then runToksF f ts (s.drop w.length) caps else none)
      <|> runToksF f (.alt ws :: ts) s caps
  | f + 1, .anyStar :: ts, [], caps => runToksF f ts [] caps
  | f + 1, .anyStar :: ts, c :: s, caps =>
    (if c == '\n' then none else runToksF f (.anyStar :: ts) s caps)
      <|> runToksF f ts (c :: s) caps
  | f + 1, .optChar c :: ts, s, caps =>
    match s with
    | d :: s' => if d == c then runToksF f ts s' caps <|> runToksF f ts s caps
                 else runToksF f ts s caps
    | [] => runToksF f ts [] caps
  | f + 1, .classPlus p :: ts, s, caps =>
    let run := s.takeWhile p
    if run.isEmpty then none
    else runToksF f ts (s.drop run.length) (String.mk run :: caps)

/-- Matcher entry point with provably sufficient fuel. -/
def runToks (ts : List Tok) (s : List Char) : Option (List String) :=
  runToksF (2 * s.length + toksSize ts + 1) ts s []

/-- Python `re.search`: try a match anchored at each position, leftmost
first. -/
def regexSearchAux : List Tok → List Char → Option (List String)
  | pat, [] => runToks pat []
  | pat, c :: s => (runToks pat (c :: s)) <|> regexSearchAux pat s

/-- Search a pattern in a string, returning the capture groups of the
leftmost match. -/
def regexSearch (pat : List Tok) (s : String) : Option (List String) :=
  regexSearchAux pat s.data

/-! ## The deterministic translation path (`pattern_match`) -/

/-- Character class `[a-z_]` from the lineage pattern. -/
def lowerOrUnderscore (c : Char) : Bool :=
  ('a' ≤ c && c ≤ 'z') || c == '_'

/-- A query template is either a fixed query string or, for the lineage
pattern, a function of the regex capture groups (the Python source
stores a lambda over the match object). -/
inductive QueryTemplate where
  | fixed (q : String)
  | fromGroups (f : List String → String)

/-- Apply a template to the capture groups of a match, mirroring
`query_template(match) if callable(query_template) else query_template`
(src/nl_interface.py:297). -/
def applyTemplate : QueryTemplate → List String → String
  | .fixed q, _ => q
  | .fromGroups f, caps => f caps

/-- The ordered rule table of `NaturalLanguageInterface.pattern_match`
(src/nl_interface.py:261-292): compound patterns first, then simple
patterns, each with its query template and progress message. -/
def patterns : List (List Tok × QueryTemplate × String) :=
  [ ([.lit "gold", .anyStar, .alt ["without", "missing", "no"], .anyStar,
      .alt ["governance", "reviewer", "validator"]],
     .fixed "gold_without_governance(ViewName)",
     "Finding Gold datasets with governance gaps..."),
    ([.alt ["confidential", "pii", "sensitive"], .anyStar,
      .alt ["without", "missing", "no"], .anyStar, .lit "steward"],
     .fixed "confidential_data(ViewName, ColumnName), datapoint_without_steward(ViewName, ColumnName)",
     "Finding confidential data without stewards..."),
    ([.lit "high", .anyStar, .lit "risk"],
     .fixed "high_risk_data(ViewName, ColumnName, Reason)",
     "Finding high-risk data..."),
    ([.alt ["compliance", "governance"], .anyStar,
      .alt ["problem", "issue", "violation", "gap"]],
     .fixed "governance_violation(ViewName, ViolationType)",
     "Checking governance violations..."),
    ([.lit "gold", .anyStar, .lit "dataset", .optChar 's'],
     .fixed "datasets_in_layer('Gold', ViewName)", "Finding Gold datasets..."),
    ([.lit "silver", .anyStar, .lit "dataset", .optChar 's'],
     .fixed "datasets_in_layer('Silver', ViewName)", "Finding Silver datasets..."),
    ([.lit "bronze", .anyStar, .lit "dataset", .optChar 's'],
     .fixed "datasets_in_layer('Bronze', ViewName)", "Finding Bronze datasets..."),
    ([.lit "subject area", .optChar 's'],
     .fixed "all_subject_areas(SubjectAreas)", "Finding subject areas..."),
    ([.lit "data source", .optChar 's'],
     .fixed "all_data_sources(DataSources)", "Finding data sources..."),
    ([.lit "governance", .anyStar, .lit "violation", .optChar 's'],
     .fixed "governance_violation(ViewName, ViolationType)", "Checking governance..."),
    ([.lit "without", .anyStar, .lit "reviewer"],
     .fixed "dataset_without_reviewer(ViewName)", "Finding missing reviewers..."),
    ([.lit "without", .anyStar, .lit "validator"],
     .fixed "dataset_without_validator(ViewName)", "Finding missing validators..."),
    ([.lit "without", .anyStar, .lit "steward"],
     .fixed "datapoint_without_steward(ViewName, ColumnName)", "Finding missing stewards..."),
    ([.lit "confidential"],
     .fixed "confidential_data(ViewName, ColumnName)", "Finding confidential data..."),
    ([.lit "pii"],
     .fixed "pii_data(ViewName, ColumnName)", "Finding PII..."),
    ([.lit "lineage for ", .classPlus lowerOrUnderscore, .lit ".",
      .classPlus lowerOrUnderscore],
     .fromGroups (fun caps =>
       "full_lineage('" ++ caps.getD 0 "" ++ "', '" ++ caps.getD 1 "" ++ "', Lineage)"),
     "Tracing lineage...") ]

/-- Scan the rule table top to bottom; the first rule whose pattern
matches the (lowered, stripped) question wins (src/nl_interface.py:294-298). -/
def matchRules : List (List Tok × QueryTemplate × String) → String → Option (String × String)
  | [], _ => none
  | (pat, tmpl, msg) :: rest, q =>
    match regexSearch pat q with
    | some caps => some (applyTemplate tmpl caps, msg)
    | none => matchRules rest q

/-- Embeds `NaturalLanguageInterface.pattern_match`
(src/nl_interface.py:257-300): lower and strip the question, return the
first matching rule's instantiated query and message, or no query and
the help hint. -/
def pattern_match (question : String) : Option String × String :=
  let q := pyStrip (pyLower question)
  match matchRules patterns q with
  | some (query, msg) => (some query, msg)
  | none => (none, "❓ Try 'help' for examples")

/-! ## The external-suggestion (AI) translation path -/

/-- Outcome of the single bounded HTTP request issued by
`translate_with_ai` (src/nl_interface.py:203-216).  `timeout` and
`connError` are the two ways the request can raise; the source's bare
`except:` treats every raised exception alike. -/
inductive AiOutcome where
  | ok (status : Nat) (response : String)
  | timeout
  | connError

/-- Embeds the response clean-up of `translate_with_ai`
(src/nl_interface.py:219-232): strip, remove code fences, keep the
first line, drop one trailing period.  No parsing or validation of the
result is performed. -/
def clean_ai_response (raw : String) : String :=
  let q1 := pyStrip raw
  let q2 := pyReplace (pyReplace q1 "```prolog" "") "```" ""
  let q3 := pyStrip (pyReplace q2 "```" "")
  let q4 := if pyContainsChar q3 '\n' then pyStrip (pyFirstLine q3 '\n') else q3
  if pyEndsWithChar q4 '.' then pyDropLast q4 else q4

/-- Embeds `NaturalLanguageInterface.translate_with_ai`
(src/nl_interface.py:202-255) as a function of the request outcome: on a
200 response the cleaned suggestion is returned whenever it is
non-empty; a non-200 status or an empty cleaned suggestion yields no
query; any raised exception (timeout, unreachable collaborator) is
swallowed by the bare `except:` and yields no query. -/
def translate_with_ai (o : AiOutcome) : Option String × String :=
  match o with
  | .ok status response =>
    if status == 200 then
      let query := clean_ai_response response
      if query ≠ "" then (some query, "🧠 AI understood...")
      else (none, "AI translation failed")
    else (none, "AI translation failed")
  | .timeout => (none, "AI error")
  | .connError => (none, "AI error")

/-- Embeds `NaturalLanguageInterface.translate_to_prolog`
(src/nl_interface.py:302-308): when AI mode is enabled and the
collaborator was detected, try the external path first and keep its
query if it produced one; in every other case fall back to the
deterministic `pattern_match`. -/
def translate_to_prolog (useAi ollamaAvailable : Bool) (o : AiOutcome)
    (question : String) : Option String × String :=
  if useAi && ollamaAvailable then
    match translate_with_ai o with
    | (some query, msg) => (some query, msg)
    | (none, _) => pattern_match question
  else pattern_match question

/-! ## Query Language textual syntax (from the spec)

The specification (section 6) describes the textual query syntax the
deterministic templates target: an atom is `name(arg1, ...)` with
single-quoted string literals and capitalized variables; conjunctions
are comma-joined; disjunctions semicolon-joined, parenthesized when
embedded.  The source contains no parser for this syntax — the checker
below follows the spec's words and exists to compare the external
path's behaviour against the spec's validation requirement. -/

/-- The single-quote character of the query syntax's string literals. -/
def quoteChar : Char := Char.ofNat 39

/-- Space skipping inside the query syntax. -/
def skipSpacesL (s : List Char) : List Char :=
  s.dropWhile (fun c => c == ' ')

/-- First character of a predicate name: a lowercase letter or
underscore. -/
def isLowerStart (c : Char) : Bool :=
  ('a' ≤ c && c ≤ 'z') || c == '_'

/-- Continuation character of a name or variable. -/
def isNameChar (c : Char) : Bool :=
  isLowerStart c || ('0' ≤ c && c ≤ '9') || ('A' ≤ c && c ≤ 'Z')

/-- First character of a variable: an uppercase letter. -/
def isUpperStart (c : Char) : Bool :=
  'A' ≤ c && c ≤ 'Z'

/-- Consume a lowercase predicate name, returning the rest. -/
def parseLowerName (s : List Char) : Option (List Char) :=
  match s with
  | c :: rest => if isLowerStart c then some (rest.dropWhile isNameChar) else none
  | [] => none

/-- Consume one atom argument: a single-quoted literal or a capitalized
variable. -/
def parseArg (s : List Char) : Option (List Char) :=
  match s with
  | c :: rest =>
    if c == quoteChar then
      match rest.dropWhile (fun d => !(d == quoteChar)) with
      | d :: rest2 => if d == quoteChar then some rest2 else none
      | [] => none
    else if isUpperStart c then some (rest.dropWhile isNameChar)
    else none
  | [] => none

/-- Consume `(',' arg)* ')'` after the first argument of an atom. -/
def parseArgsTail : Nat → List Char → Option (List Char)
  | 0, _ => none
  | fuel + 1, s =>
    match skipSpacesL s with
    | c :: rest =>
      if c == ')' then some rest
      else if c == ',' then
        match parseArg (skipSpacesL rest) with
        | some s2 => parseArgsTail fuel s2
        | none => none
      else none
    | [] => none

/-- Consume one atom `name(arg, ..., arg)`.  Atoms never contain
sub-queries as arguments (spec section 4.3). -/
def parseAtom (fuel : Nat) (s : List Char) : Option (List Char) :=
  match parseLowerName s with
  | some s1 =>
    match skipSpacesL s1 with
    | c :: rest =>
      if c == '(' then
        match parseArg (skipSpacesL rest) with
        | some s2 => parseArgsTail fuel s2
        | none => none
      else none
    | [] => none
  | none => none

mutual

/-- Consume one element: an atom or a parenthesized sub-query. -/
def parseElement : Nat → List Char → Option (List Char)
  | 0, _ => none
  | fuel + 1, s =>
    match skipSpacesL s with
    | c :: rest =>
      if c == '(' then
        match parseQueryBody fuel rest with
        | some s2 =>
          match skipSpacesL s2 with
          | d :: rest2 => if d == ')' then some rest2 else none
          | [] => none
        | none => none
      else parseAtom fuel (c :: rest)
    | [] => none

/-- Consume `element ((',' | ';') element)*`. -/
def parseQueryBody : Nat → List Char → Option (List Char)
  | 0, _ => none
  | fuel + 1, s =>
    match parseElement fuel s with
    | some s1 => parseQuerySeps fuel s1
    | none => none

/-- Consume the separator-element repetitions after the first element. -/
def parseQuerySeps : Nat → List Char → Option (List Char)
  | 0, _ => none
  | fuel + 1, s =>
    match skipSpacesL s with
    | c :: rest =>
      if c == ',' || c == ';' then
        match parseElement fuel rest with
        | some s2 => parseQuerySeps fuel s2
        | none => none
      else some (c :: rest)
    | [] => some []

end

/-- Checks, following the spec's words, that a string is valid textual
query syntax: a full parse of `element ((','|';') element)*` consuming
the entire input. -/
def specValidQuerySyntax (q : String) : Bool :=
  match parseQueryBody (q.data.length + 1) q.data with
  | some rest => (skipSpacesL rest).isEmpty
  | none => false

/-! ## The result formatter (`format_results`) -/

/-- A variable binding row as produced by the Prolog bridge: an
association list from variable name to the bound value's textual form,
embedding the Python dict (keys unique, insertion-ordered). -/
abbrev Binding := List (String × String)

/-- Python `key in row` on a binding dict. -/
def bHas (r : Binding) (k : String) : Bool :=
  r.any (fun p => p.1 == k)

/-- Python `row.get(key)`: the value, or `None` when absent. -/
def bGet (r : Binding) (k : String) : Option String :=
  (r.find? (fun p => p.1 == k)).map (fun p => p.2)

/-- Rendering of an optional value inside a Python f-string: `None`
when absent. -/
def pyShowOpt : Option String → String
  | some s => s
  | none => "None"

/-- Python `repr` of a string-to-string dict, used by the fallback
branch `f"  {i}. {r}"`. -/
def pyDictRepr (r : Binding) : String :=
  "\x7b" ++
    pyJoin ", " (r.map (fun p =>
      "'" ++ p.1 ++ "': '" ++ p.2 ++ "'")) ++
  "\x7d"

/-- Numbered display lines `  {i}. {text}`, one per row, counting from
one. -/
def numberedLines (f : Binding → String) (rows : List Binding) : List String :=
  rows.enum.map (fun p => "  " ++ toString (p.1 + 1) ++ ". " ++ f p.2)

/-- Insert one row's (violation-type, view) pair into the grouping
accumulator, preserving first-occurrence order of the keys and
appending to an existing group — the behaviour of the Python dict of
lists built in src/nl_interface.py:342-347. -/
def insertViolation (acc : List (Option String × List (Option String)))
    (vt v : Option String) : List (Option String × List (Option String)) :=
  match acc with
  | [] => [(vt, [v])]
  | (k, vs) :: rest =>
    if k == vt then (k, vs ++ [v]) :: rest
    else (k, vs) :: insertViolation rest vt v

/-- Group all rows by their `ViolationType` value, collecting the
`ViewName` values of each group in order. -/
def groupViolations (rows : List Binding) : List (Option String × List (Option String)) :=
  rows.foldl (fun acc r => insertViolation acc (bGet r "ViolationType") (bGet r "ViewName")) []

/-- Display block for one violation group: a header line and at most
five entity lines (`views[:5]`, src/nl_interface.py:350). -/
def violationGroupLines (g : Option String × List (Option String)) : List String :=
  ("\n  " ++ pyShowOpt g.1 ++ ":") :: (g.2.take 5).map (fun v => "    - " ++ pyShowOpt v)

/-- Embeds `NaturalLanguageInterface.format_results`
(src/nl_interface.py:328-356).  An empty result set renders as a
distinct message; otherwise the branch is chosen by which keys the
first row has, checked in the order `ViewName`, `ColumnName`,
`ViolationType`, with a raw-dict fallback, and the assembled lines are
newline-joined. -/
def format_results (results : List Binding) (prologQuery : String) : String :=
  match results with
  | [] => "No results found."
  | r :: _ =>
    let header := "\nFound " ++ toString results.length ++ " results:\n"
    let body : List String :=
      if bHas r "ViewName" then
        numberedLines (fun row => pyShowOpt (bGet row "ViewName")) results
      else if bHas r "ColumnName" then
        numberedLines (fun row =>
          pyShowOpt (bGet row "ViewName") ++ "." ++ pyShowOpt (bGet row "ColumnName")) results
      else if bHas r "ViolationType" then
        (groupViolations results).flatMap violationGroupLines
      else
        numberedLines pyDictRepr results
    pyJoin "\n" (header :: body)

/-! ## Fact ingestion (`safe_prolog_value`) -/

/-- A spreadsheet cell as seen by `safe_prolog_value`
(src/excel_to_prolog.py:10-25): missing (Python `None` or a pandas
`NaN`), a number, or a string. -/
inductive CellValue where
  | absent
  | num (n : Int)
  | str (s : String)

/-- Embeds `safe_prolog_value` (src/excel_to_prolog.py:10-25): missing
values, `NaN` and the empty string all serialize to the unquoted atom
`null`; numbers print directly; other strings become single-quoted
atoms with single quotes escaped. -/
def safe_prolog_value : CellValue → String
  | .absent => "null"
  | .num n => toString n
  | .str s =>
    if s = "" then "null"
    else "'" ++ pyReplace s "'" "\\'" ++ "'"

/-! ## Query execution boundary and the interactive loop -/

/-- Outcome of handing a query string to the Prolog engine
(`list(self.prolog.query(...))`): a list of binding rows, or a raised
exception carrying a message. -/
inductive ExecOutcome where
  | ok (rows : List Binding)
  | err (msg : String)

/-- Embeds `NaturalLanguageInterface.query` (src/nl_interface.py:310-326)
with the consulted fact base threaded explicitly: the method only reads
the engine (no assert, retract or consult), so the fact base passes
through unchanged; on an engine exception it prints two error lines and
returns the empty list.  Result: (fact base, rows, printed error lines). -/
def run_query (facts : List String) (o : ExecOutcome) (prologQuery : String) :
    List String × List Binding × List String :=
  match o with
  | .ok rows => (facts, rows, [])
  | .err e => (facts, [], ["❌ Query error: " ++ e, "   Query was: " ++ prologQuery])

/-- Horizontal rule of the help banner: sixty-six box-drawing
characters. -/
def boxRule : String :=
  String.mk (List.replicate 66 '═')

/-- Display text printed by `show_help` (src/nl_interface.py:358-379). -/
def help_text : String :=
  "\n╔" ++ boxRule ++ "╗\n║                 NATURAL LANGUAGE INTERFACE                        ║\n╚" ++ boxRule ++ "╝\n\nEXAMPLES:\n  • \"Show me all Gold datasets\"\n  • \"Find datasets without reviewers\"\n  • \"Check governance violations\"\n  • \"Find confidential data\"\n  • \"Trace lineage for gold_customer_data.email\"\n  • \"What are all the subject areas?\"\n\nCOMMANDS:\n  • help - Show this message\n  • exit - Quit\n\nTIP: Use --ai flag for better understanding!\n  python nl_interface.py --ai\n        "

/-- Result of one iteration of the interactive loop: quit the session or
continue, in both cases with the lines printed during the iteration. -/
inductive StepResult where
  | quit (outputs : List String)
  | cont (outputs : List String)

/-- Embeds one iteration of
`NaturalLanguageInterface.interactive_mode` (src/nl_interface.py:386-410)
as a function of the typed-in line and the outcomes of the translation
request and the query execution.  Only the reserved words `exit`,
`quit` and `q` leave the loop; empty input, `help`, an unrecognized
question, and every query outcome — including an engine error — continue
it, and the fact base is returned unchanged except through `run_query`
(which never changes it). -/
def interactive_step (useAi ollamaAvailable : Bool) (ai : AiOutcome)
    (facts : List String) (exec : ExecOutcome) (rawInput : String) :
    StepResult × List String :=
  let question := pyStrip rawInput
  if question = "" then (.cont [], facts)
  else if pyLower question = "exit" ∨ pyLower question = "quit" ∨ pyLower question = "q" then
    (.quit ["\n👋 Goodbye!"], facts)
  else if pyLower question = "help" then (.cont [help_text], facts)
  else
    match translate_to_prolog useAi ollamaAvailable ai question with
    | (none, message) => (.cont ["\n" ++ message ++ "\n"], facts)
    | (some prologQuery, message) =>
      let res := run_query facts exec prologQuery
      (.cont (["\n🔍 " ++ message, "   Query: " ++ prologQuery ++ "\n"] ++ res.2.2 ++
        [format_results res.2.1 prologQuery ++ "\n"]), res.1)

/-- Rendering a query's outcome for the user: the formatter applied to
whatever `query` returned. -/
def query_and_format (facts : List String) (o : ExecOutcome) (prologQuery : String) : String :=
  format_results (run_query facts o prologQuery).2.1 prologQuery

/-! ## Lineage traversal (modelled from the spec)

The Prolog knowledge base `metadata_kb.pl` that defines
`immediate_source` and `full_lineage` is loaded by the interface
(src/nl_interface.py:38) but its file is not part of the source tree
here, so the traversal is modelled from the specification (sections 4.2
and 8). -/

/-- A lineage node: a `(view_name, column_name)` pair. -/
abbrev LineageNode := String × String

/-- A directed lineage edge from a datapoint to its declared source
datapoint. -/
abbrev LineageEdge := LineageNode × LineageNode

/-- Modelled from the spec: `immediate_source(v, c, source_v, source_c)`
— one hop of the lineage edge for datapoints that declare a
`source_view_name`/`source_column_name` (spec section 4.2); the lineage
relation is many-to-one-or-zero (spec section 3), so the hop from a
given node is the first matching edge, if any. -/
def immediate_source (edges : List LineageEdge) (n : LineageNode) : Option LineageNode :=
  (edges.find? (fun e => e.1 == n)).map (fun e => e.2)

/-- Modelled from the spec: the recursive traversal behind
`full_lineage(v, c, chain)` (spec section 4.2), carrying the visited
set keyed by `(view, column)`.  On revisiting a node the chain is
terminated and the `LineageCycle` condition (the `Bool` component)
reported.  The fuel only falls to zero if the recursion outlives every
unvisited source node, which `full_lineage_terminates` shows cannot
happen with the fuel chosen by `full_lineage`. -/
def full_lineage_aux (edges : List LineageEdge) :
    Nat → List LineageNode → LineageNode → Option (List LineageNode × Bool)
  | 0, _, _ => none
  | fuel + 1, visited, node =>
    if node ∈ visited then some ([], true)
    else
      match immediate_source edges node with
      | none => some ([node], false)
      | some next =>
        (full_lineage_aux edges fuel (node :: visited) next).map
          (fun rc => (node :: rc.1, rc.2))

/-- Modelled from the spec: `full_lineage(v, c, chain)` — follow
`immediate_source` from `(v, c)` back to the root, producing the ordered
chain from the given node to the ultimate source plus the
`LineageCycle` flag; the step budget `edges.length + 1` bounds the
traversal on every input, cyclic fact bases included. -/
def full_lineage (edges : List LineageEdge) (v c : String) :
    Option (List LineageNode × Bool) :=
  full_lineage_aux edges (edges.length + 1) [] (v, c)

/-- Filtering with a pointwise-stronger predicate yields at most as many
elements. -/
theorem length_filter_mono {α : Type} (L : List α) (p q : α → Bool)
    (h : ∀ a, p a = true → q a = true) :
    (L.filter p).length ≤ (L.filter q).length := by
  induction L with
  | nil => simp
  | cons a L ih =>
    by_cases hp : p a = true
    · simp [List.filter, hp, h a hp]
      omega
    · simp only [List.filter]
      rw [Bool.not_eq_true] at hp
      rw [hp]
      by_cases hq : q a = true
      · simp [hq]
        omega
      · rw [Bool.not_eq_true] at hq
        rw [hq]
        exact ih

/-- Marking one more node visited strictly shrinks the count of
unvisited source nodes, provided the node is an unvisited source. -/
theorem length_filter_visited_cons_lt (L : List LineageNode) (x : LineageNode)
    (visited : List LineageNode) (hxL : x ∈ L) (hxv : x ∉ visited) :
    (L.filter (fun n => decide (n ∉ x :: visited))).length <
      (L.filter (fun n => decide (n ∉ visited))).length := by
  induction L with
  | nil => cases hxL
  | cons a L ih =>
    have hmono : ∀ n : LineageNode,
        (decide (n ∉ x :: visited)) = true → (decide (n ∉ visited)) = true := by
      intro n hn
      simp only [decide_eq_true_eq] at hn ⊢
      intro hmem
      exact hn (List.mem_cons_of_mem x hmem)
    rcases List.mem_cons.mp hxL with hax | hxL'
    · subst hax
      have h1 : (decide (x ∉ x :: visited)) = false := by
        simp
      have h2 : (decide (x ∉ visited)) = true := by
        simpa using hxv
      have e1 : (x :: L).filter (fun n => decide (n ∉ x :: visited)) =
          L.filter (fun n => decide (n ∉ x :: visited)) := by
        rw [List.filter_cons, h1]
        simp
      have e2 : (x :: L).filter (fun n => decide (n ∉ visited)) =
          x :: L.filter (fun n => decide (n ∉ visited)) := by
        rw [List.filter_cons, h2]
        simp
      rw [e1, e2]
      have := length_filter_mono L (fun n => decide (n ∉ x :: visited))
        (fun n => decide (n ∉ visited)) hmono
      simp only [List.length_cons]
      omega
    · by_cases hax : a = x
      · subst hax
        have h1 : (decide (a ∉ a :: visited)) = false := by simp
        have h2 : (decide (a ∉ visited)) = true := by simpa using hxv
        simp only [List.filter, h1, h2]
        have := length_filter_mono L (fun n => decide (n ∉ a :: visited))
          (fun n => decide (n ∉ visited)) hmono
        simp only [List.length_cons]
        omega
      · have hsame : (decide (a ∉ x :: visited)) = (decide (a ∉ visited)) := by
          by_cases hav : a ∈ visited
          · simp [hav, List.mem_cons]
          · simp [hav, List.mem_cons, hax]
        by_cases hcase : (decide (a ∉ visited)) = true
        · simp only [List.filter, hsame, hcase, List.length_cons]
          exact Nat.succ_lt_succ (ih hxL')
        · rw [Bool.not_eq_true] at hcase
          simp only [List.filter, hsame, hcase]
          exact ih hxL'

/-- The fuel chosen by `full_lineage` is sufficient: the traversal
returns a chain whenever the fuel exceeds the number of unvisited
source nodes, so the zero-fuel branch is unreachable from
`full_lineage`. -/
theorem full_lineage_aux_isSome (edges : List LineageEdge) :
    ∀ (fuel : Nat) (visited : List LineageNode) (node : LineageNode),
      ((edges.map (fun e => e.1)).filter (fun n => decide (n ∉ visited))).length < fuel →
      (full_lineage_aux edges fuel visited node).isSome = true := by
  intro fuel
  induction fuel with
  | zero => intro visited node h; omega
  | succ f ih =>
    intro visited node h
    rw [full_lineage_aux]
    by_cases hv : node ∈ visited
    · simp [hv]
    · simp only [hv, if_false, if_neg hv]
      match hsrc : immediate_source edges node with
      | none => simp
      | some next =>
        have hmem : node ∈ edges.map (fun e => e.1) := by
          unfold immediate_source at hsrc
          match hfind : edges.find? (fun e => e.1 == node) with
          | none => rw [hfind] at hsrc; simp at hsrc
          | some e =>
            have he := List.find?_some hfind
            have hmem' := List.mem_of_find?_eq_some hfind
            have : e.1 = node := by
              simpa using he
            subst this
            exact List.mem_map_of_mem (fun e => e.1) hmem'
        have hlt : ((edges.map (fun e => e.1)).filter
            (fun n => decide (n ∉ node :: visited))).length <
            ((edges.map (fun e => e.1)).filter (fun n => decide (n ∉ visited))).length :=
          length_filter_visited_cons_lt _ node visited hmem hv
        have hf : ((edges.map (fun e => e.1)).filter
            (fun n => decide (n ∉ node :: visited))).length < f := by omega
        have hres := ih (node :: visited) next hf
        cases hfl : full_lineage_aux edges f (node :: visited) next with
        | none => rw [hfl] at hres; simp at hres
        | some rc => simp [hfl]

/-- Whether a loop iteration continued the session. -/
def StepResult.isCont : StepResult → Bool
  | .quit _ => false
  | .cont _ => true

/-! ## Claims -/

/-- Claim C1: rules are tried top-to-bottom and the first matching
text-pattern wins, with compound rules placed before general ones; for
the question "gold datasets without governance" the translator emits
`gold_without_governance(ViewName)` — the first, compound rule — and
not `datasets_in_layer('Gold', ViewName)`. -/
theorem pattern_match_compound_rule_wins :
    pattern_match "gold datasets without governance" =
      (some "gold_without_governance(ViewName)",
       "Finding Gold datasets with governance gaps...")
    ∧ (pattern_match "gold datasets without governance").1 ≠
      some "datasets_in_layer('Gold', ViewName)" := by
  decide

/-- Claim C3, counterexample: a 200-status suggestion that is not valid
query syntax is passed onward unchanged by the external path — no
re-validation happens (the validation block in the source is commented
out). -/
theorem ai_validation_cex :
    translate_with_ai (AiOutcome.ok 200 "this is not a query at all") =
      (some "this is not a query at all", "🧠 AI understood...")
    ∧ specValidQuerySyntax "this is not a query at all" = false := by
  decide

/-- Claim C3, amended: the external-suggestion path only cleans the raw
text (fence stripping, first line, trailing period); every suggestion
whose cleaned text is non-empty is passed onward as the translation
result, with no syntactic validation of any kind. -/
theorem ai_suggestion_unvalidated :
    ∀ raw : String, clean_ai_response raw ≠ "" →
      (translate_with_ai (AiOutcome.ok 200 raw)).1 = some (clean_ai_response raw) := by
  intro raw h
  simp [translate_with_ai, h]

/-- Witness for `ai_suggestion_unvalidated` at a concrete suggestion. -/
theorem ai_suggestion_unvalidated_witness :
    (translate_with_ai (AiOutcome.ok 200 "not prolog at all")).1 =
      some (clean_ai_response "not prolog at all") :=
  ai_suggestion_unvalidated "not prolog at all" (by decide)

/-- Claim C4: the lineage traversal keeps a visited set keyed by
`(view, column)` and terminates within the `edges.length + 1` step
budget on every fact base, cyclic ones included; on the fabricated
cycle `A.x → B.y → A.x` it terminates the chain after the two distinct
nodes and reports the `LineageCycle` condition (the `true` flag)
instead of looping.  Determinism under re-execution holds because the
model is a pure function of the fact base. -/
theorem full_lineage_bounded_and_cycle_safe :
    (∀ (edges : List LineageEdge) (v c : String),
      (full_lineage edges v c).isSome = true)
    ∧ full_lineage [(("A", "x"), ("B", "y")), (("B", "y"), ("A", "x"))] "A" "x" =
        some ([("A", "x"), ("B", "y")], true) := by
  constructor
  · intro edges v c
    apply full_lineage_aux_isSome
    have h1 : ((edges.map (fun e => e.1)).filter
        (fun n => decide (n ∉ ([] : List LineageNode)))).length ≤
        (edges.map (fun e => e.1)).length :=
      List.length_filter_le _ _
    have h2 : (edges.map (fun e => e.1)).length = edges.length :=
      List.length_map _ _
    omega
  · decide

/-- Claim C5: a timeout, an unreachable collaborator, and a suggestion
whose cleaned text is empty are all treated as a failed translation —
the translator falls back to the deterministic pattern-matching path for
the same question, whatever the mode flags, and being a total function
it surfaces no failure to the caller. -/
theorem translate_falls_back_on_ai_failure :
    ∀ (useAi avail : Bool) (question : String),
      translate_to_prolog useAi avail AiOutcome.timeout question = pattern_match question
      ∧ translate_to_prolog useAi avail AiOutcome.connError question = pattern_match question
      ∧ ∀ (status : Nat) (resp : String), clean_ai_response resp = "" →
          translate_to_prolog useAi avail (AiOutcome.ok status resp) question =
            pattern_match question := by
  intro useAi avail question
  refine ⟨?_, ?_, ?_⟩
  · cases h : useAi && avail <;> simp [translate_to_prolog, h, translate_with_ai]
  · cases h : useAi && avail <;> simp [translate_to_prolog, h, translate_with_ai]
  · intro status resp hclean
    cases h : useAi && avail <;>
      simp [translate_to_prolog, h, translate_with_ai, hclean]

/-- Witness for `translate_falls_back_on_ai_failure`: an empty cleaned
suggestion at status 200 falls back to the deterministic path. -/
theorem translate_falls_back_witness :
    translate_to_prolog true true (AiOutcome.ok 200 "") "show gold datasets" =
      pattern_match "show gold datasets" :=
  (translate_falls_back_on_ai_failure true true "show gold datasets").2.2 200 "" (by decide)

/-- Claim C8, counterexample: an absent value and the empty string
serialize to the same fact text `null` — the encoding does not
distinguish them. -/
theorem safe_prolog_value_absent_empty_cex :
    safe_prolog_value CellValue.absent = safe_prolog_value (CellValue.str "")
    ∧ safe_prolog_value CellValue.absent = "null" := by
  decide

/-- Claim C8, amended: an absent optional string and the empty string
are encoded identically, both as the unquoted atom `null`; only a
non-empty string receives the quoted encoding, which is never `null`. -/
theorem safe_prolog_value_null_encoding :
    safe_prolog_value CellValue.absent = "null"
    ∧ safe_prolog_value (CellValue.str "") = "null"
    ∧ ∀ s : String, s ≠ "" →
        safe_prolog_value (CellValue.str s) = "'" ++ pyReplace s "'" "\\'" ++ "'"
        ∧ safe_prolog_value (CellValue.str s) ≠ "null" := by
  refine ⟨rfl, rfl, ?_⟩
  intro s hs
  constructor
  · simp [safe_prolog_value, hs]
  · simp only [safe_prolog_value, hs, if_false]
    intro heq
    have hd := congrArg String.data heq
    rw [String.data_append, String.data_append] at hd
    have h1 : ("'" : String).data = [quoteChar] := rfl
    have h2 : ("null" : String).data = ['n', 'u', 'l', 'l'] := rfl
    rw [h1, h2] at hd
    simp only [List.cons_append, List.nil_append] at hd
    have h3 : quoteChar = 'n' := (List.cons.inj hd).1
    exact absurd h3 (by decide)

/-- Witness for `safe_prolog_value_null_encoding` at a concrete
non-empty string. -/
theorem safe_prolog_value_null_encoding_witness :
    safe_prolog_value (CellValue.str "Gold") = "'" ++ pyReplace "Gold" "'" "\\'" ++ "'"
    ∧ safe_prolog_value (CellValue.str "Gold") ≠ "null" :=
  safe_prolog_value_null_encoding.2.2 "Gold" (by decide)

/-- Claim C10: the query wrapper never raises — on an engine error it
returns the empty list after printing a message — so a failing query is
rendered by the formatter exactly like a genuinely empty result set,
and the caller receives no value distinguishing the two. -/
theorem query_failure_renders_as_empty :
    ∀ (facts : List String) (e prologQuery : String),
      (run_query facts (ExecOutcome.err e) prologQuery).2.1 = []
      ∧ query_and_format facts (ExecOutcome.err e) prologQuery = "No results found."
      ∧ query_and_format facts (ExecOutcome.ok []) prologQuery = "No results found."
      ∧ query_and_format facts (ExecOutcome.err e) prologQuery =
          query_and_format facts (ExecOutcome.ok []) prologQuery := by
  intro facts e prologQuery
  exact ⟨rfl, rfl, rfl, rfl⟩

/-- Claim C2, counterexample: for a non-empty result whose bindings
contain both `ViewName` and `ViolationType`, the formatter renders the
flat numbered view list — the `ViewName` branch is checked first — and
not the grouping by `ViolationType` the claim requires. -/
theorem format_results_priority_cex :
    format_results [[("ViewName", "view_a"), ("ViolationType", "missing_reviewer")]]
        "governance_violation(ViewName, ViolationType)" =
      "\nFound 1 results:\n\n  1. view_a"
    ∧ format_results [[("ViewName", "view_a"), ("ViolationType", "missing_reviewer")]]
        "governance_violation(ViewName, ViolationType)" ≠
      pyJoin "\n" ["\nFound 1 results:\n", "\n  missing_reviewer:", "    - view_a"] := by
  decide

/-- Claim C2, amended: the formatter dispatches on the first row's
variables in the order `ViewName` (flat view list), then `ColumnName`
(`entity.column` per row), then `ViolationType` (grouped); grouping by
`ViolationType` therefore happens only when neither `ViewName` nor
`ColumnName` is bound, and a result binding both `ViewName` and
`ViolationType` renders as the flat view list. -/
theorem format_results_dispatch_order :
    ∀ (r : Binding) (rs : List Binding) (q : String),
      (bHas r "ViewName" = true →
        format_results (r :: rs) q =
          pyJoin "\n" (("\nFound " ++ toString (r :: rs).length ++ " results:\n") ::
            numberedLines (fun row => pyShowOpt (bGet row "ViewName")) (r :: rs)))
      ∧ (bHas r "ViewName" = false → bHas r "ColumnName" = true →
        format_results (r :: rs) q =
          pyJoin "\n" (("\nFound " ++ toString (r :: rs).length ++ " results:\n") ::
            numberedLines (fun row =>
              pyShowOpt (bGet row "ViewName") ++ "." ++ pyShowOpt (bGet row "ColumnName"))
              (r :: rs)))
      ∧ (bHas r "ViewName" = false → bHas r "ColumnName" = false →
          bHas r "ViolationType" = true →
        format_results (r :: rs) q =
          pyJoin "\n" (("\nFound " ++ toString (r :: rs).length ++ " results:\n") ::
            (groupViolations (r :: rs)).flatMap violationGroupLines)) := by
  intro r rs q
  refine ⟨?_, ?_, ?_⟩
  · intro h1
    simp [format_results, h1]
  · intro h1 h2
    simp [format_results, h1, h2]
  · intro h1 h2 h3
    simp [format_results, h1, h2, h3]

/-- Witness for `format_results_dispatch_order`: a row binding both
`ViewName` and `ViolationType` renders as the flat view list. -/
theorem format_results_dispatch_order_witness :
    format_results [[("ViewName", "v1"), ("ViolationType", "t1")]] "q" =
      pyJoin "\n" (("\nFound " ++
          toString ([[("ViewName", "v1"), ("ViolationType", "t1")]] : List Binding).length ++
          " results:\n") ::
        numberedLines (fun row => pyShowOpt (bGet row "ViewName"))
          [[("ViewName", "v1"), ("ViolationType", "t1")]]) :=
  (format_results_dispatch_order [("ViewName", "v1"), ("ViolationType", "t1")] [] "q").1
    (by decide)

/-- Scanning the rule table returns nothing when no rule's pattern
matches the question. -/
theorem matchRules_eq_none (q : String) :
    ∀ rs : List (List Tok × QueryTemplate × String),
      rs.all (fun r => (regexSearch r.1 q).isNone) = true → matchRules rs q = none := by
  intro rs
  induction rs with
  | nil => intro _; rfl
  | cons r rest ih =>
    intro h
    rw [List.all_cons, Bool.and_eq_true] at h
    obtain ⟨h1, h2⟩ := h
    obtain ⟨pat, tmpl, msg⟩ := r
    rw [Option.isNone_iff_eq_none] at h1
    have h1' : regexSearch pat q = none := h1
    simp only [matchRules, h1']
    exact ih h2

/-- Claim C6: a question matching none of the deterministic patterns —
with the external path producing nothing — yields the explicit
"unrecognized" outcome (no query, the rephrase hint), never a default
query; the translator is a total function, so no exception escapes. -/
theorem unmatched_question_unrecognized :
    ∀ question : String,
      patterns.all (fun r => (regexSearch r.1 (pyStrip (pyLower question))).isNone) = true →
      pattern_match question = (none, "❓ Try 'help' for examples")
      ∧ ∀ (useAi avail : Bool),
          translate_to_prolog useAi avail AiOutcome.timeout question =
            (none, "❓ Try 'help' for examples") := by
  intro question h
  have hpm : pattern_match question = (none, "❓ Try 'help' for examples") := by
    have hmr := matchRules_eq_none (pyStrip (pyLower question)) patterns h
    simp [pattern_match, hmr]
  refine ⟨hpm, ?_⟩
  intro useAi avail
  cases hb : useAi && avail <;> simp [translate_to_prolog, hb, translate_with_ai, hpm]

/-- Witness for `unmatched_question_unrecognized` at a question that no
pattern matches. -/
theorem unmatched_question_unrecognized_witness :
    pattern_match "hello there" = (none, "❓ Try 'help' for examples") :=
  (unmatched_question_unrecognized "hello there" (by decide)).1

/-- Claim C7: an engine error on a query is caught at the query
boundary — `run_query` returns no rows plus two printed error lines and
hands the fact base back untouched — and an iteration of the
interactive loop on any non-exit input with an erroring query execution
continues the session with the fact base unchanged. -/
theorem query_errors_caught_session_continues :
    ∀ (facts : List String) (e prologQuery input : String) (useAi avail : Bool)
      (ai : AiOutcome),
      run_query facts (ExecOutcome.err e) prologQuery =
        (facts, [], ["❌ Query error: " ++ e, "   Query was: " ++ prologQuery])
      ∧ (¬(pyLower (pyStrip input) = "exit" ∨ pyLower (pyStrip input) = "quit" ∨
            pyLower (pyStrip input) = "q") →
          (interactive_step useAi avail ai facts (ExecOutcome.err e) input).1.isCont = true
          ∧ (interactive_step useAi avail ai facts (ExecOutcome.err e) input).2 = facts) := by
  intro facts e prologQuery input useAi avail ai
  refine ⟨rfl, ?_⟩
  intro hx
  by_cases h0 : pyStrip input = ""
  · simp [interactive_step, h0, StepResult.isCont]
  · by_cases hh : pyLower (pyStrip input) = "help"
    · simp [interactive_step, h0, hx, hh, StepResult.isCont]
    · rcases htr : translate_to_prolog useAi avail ai (pyStrip input) with ⟨oq, msg⟩
      cases oq with
      | none => simp [interactive_step, h0, hx, hh, htr, StepResult.isCont]
      | some pq => simp [interactive_step, h0, hx, hh, htr, StepResult.isCont, run_query]

/-- Witness for `query_errors_caught_session_continues` at a concrete
erroring iteration. -/
theorem query_errors_caught_witness :
    (interactive_step false false AiOutcome.timeout ["f1"] (ExecOutcome.err "boom")
      "find pii").1.isCont = true
    ∧ (interactive_step false false AiOutcome.timeout ["f1"] (ExecOutcome.err "boom")
        "find pii").2 = ["f1"] :=
  (query_errors_caught_session_continues ["f1"] "boom" "pq" "find pii" false false
    AiOutcome.timeout).2 (by decide)

/-- Claim C9, counterexample: a violation group holding six entities is
rendered as its header plus only the first five entities, with no
statement of how many were omitted — the displayed block ends after the
fifth `- None` line. -/
theorem format_results_cap_no_remainder_cex :
    groupViolations (List.replicate 6 [("ViolationType", "missing_steward")]) =
      [(some "missing_steward", List.replicate 6 none)]
    ∧ format_results (List.replicate 6 [("ViolationType", "missing_steward")])
        "governance_violation(view_x, ViolationType)" =
      "\nFound 6 results:\n\n\n  missing_steward:\n    - None\n    - None\n    - None\n    - None\n    - None" := by
  decide

/-- Claim C9, amended: each violation group lists at most the first
five of its entities (`views[:5]`); entities beyond the cap are
silently omitted and no count of the remainder is rendered — the
group's block consists of exactly the header line and the capped
entity lines. -/
theorem format_results_group_cap_five :
    ∀ (r : Binding) (rs : List Binding) (q : String),
      bHas r "ViewName" = false → bHas r "ColumnName" = false →
      bHas r "ViolationType" = true →
      format_results (r :: rs) q =
        pyJoin "\n" (("\nFound " ++ toString (r :: rs).length ++ " results:\n") ::
          (groupViolations (r :: rs)).flatMap (fun g =>
            ("\n  " ++ pyShowOpt g.1 ++ ":") ::
              (g.2.take 5).map (fun v => "    - " ++ pyShowOpt v))) := by
  intro r rs q h1 h2 h3
  have hfun : violationGroupLines = (fun g : Option String × List (Option String) =>
      ("\n  " ++ pyShowOpt g.1 ++ ":") ::
        (g.2.take 5).map (fun v => "    - " ++ pyShowOpt v)) := by
    funext g
    rfl
  simp [format_results, h1, h2, h3, hfun]

/-- Witness for `format_results_group_cap_five` on a seven-row result. -/
theorem format_results_group_cap_five_witness :
    format_results ([("ViolationType", "missing_reviewer")] ::
        List.replicate 6 [("ViolationType", "missing_reviewer")]) "q" =
      pyJoin "\n" (("\nFound " ++
          toString (([("ViolationType", "missing_reviewer")] ::
            List.replicate 6 [("ViolationType", "missing_reviewer")]) : List Binding).length ++
          " results:\n") ::
        (groupViolations ([("ViolationType", "missing_reviewer")] ::
            List.replicate 6 [("ViolationType", "missing_reviewer")])).flatMap (fun g =>
          ("\n  " ++ pyShowOpt g.1 ++ ":") ::
            (g.2.take 5).map (fun v => "    - " ++ pyShowOpt v))) :=
  format_results_group_cap_five [("ViolationType", "missing_reviewer")]
    (List.replicate 6 [("ViolationType", "missing_reviewer")]) "q"
    (by decide) (by decide) (by decide)
